import Mathlib

/-!
Verification of the database access layer of the MotenasuApiPipeline
action lambda: the retrying query executor (`DatabaseUtil.retry_query`),
the backoff policy (`CommonUtil.sleep_with_exponential_backoff`), the
connection lifecycle guard (`ConnectionContextManager`), the pool manager
(`DatabaseUtil.initialize` / `get_connection` / `close_all_connections`)
and the record lookup (`SiteMasterRepository.get_site_master_by_id`).

The Python code is embedded shallowly: exceptions become explicit outcome
values, the retry loop becomes a fuel-indexed recursion whose fuel equals
the loop bound, the singleton pool becomes explicit state passing, and the
wall-clock sleep of the backoff policy is represented by the exact rational
delay it computes.
-/

/-- A Python value as it appears in a driver error's `args` tuple or in a
row mapping: an integer (MySQL error code) or a string. -/
inductive PyVal where
  | int (n : Int)
  | str (s : String)
deriving DecidableEq

/-- Outcome of one invocation of the unit of work `callback(cursor)` inside
`DatabaseUtil.retry_query`: a returned value, a raised `MySQLError` carrying
its `args` tuple, or a raised non-driver exception. -/
inductive CallOutcome (α : Type) where
  | ok (result : α)
  | mysqlError (args : List PyVal)
  | otherExc (payload : String)
deriving DecidableEq

/-- Final outcome of `DatabaseUtil.retry_query`: a returned value, the
fall-through `return None` after the loop, a raised `DatabaseLockException`,
a raised `DatabaseException`, or a re-raised non-driver exception. -/
inductive RetryResult (α : Type) where
  | ok (result : α)
  | noneFallthrough
  | databaseLockExc (args : List PyVal)
  | databaseExc (args : List PyVal)
  | reraised (payload : String)
deriving DecidableEq

/-- The observable trace of one `retry_query` call: its final outcome, the
attempt numbers passed to `CommonUtil.sleep_with_exponential_backoff` in
order, and the number of invocations of the unit of work. -/
structure RetryTrace (α : Type) where
  result : RetryResult α
  sleeps : List Nat
  calls : Nat
deriving DecidableEq

namespace RetryConstant

/-- `RetryConstant.LOGIN_KEY_MAX_RETRIES = 10`. -/
def LOGIN_KEY_MAX_RETRIES : Nat := 10

/-- `RetryConstant.DEFAULT_MAX_RETRIES = 3`. -/
def DEFAULT_MAX_RETRIES : Nat := 3

/-- `RetryConstant.RETRY_DELAY_IN_SECONDS = 0.1`, as the exact rational. -/
def RETRY_DELAY_IN_SECONDS : ℚ := 1 / 10

end RetryConstant

namespace CommonUtil

/-- The delay computed by `CommonUtil.sleep_with_exponential_backoff`:
`sleep_time = RetryConstant.RETRY_DELAY_IN_SECONDS ** retry_count`.  The
`time.sleep(sleep_time)` side effect is represented by this returned
duration. -/
def sleep_with_exponential_backoff (retry_count : Nat) : ℚ :=
  RetryConstant.RETRY_DELAY_IN_SECONDS ^ retry_count

/-- The same formula with the base delay as a parameter, for stating how the
delay depends on the configured constant. -/
def sleep_time_with_base (d : ℚ) (retry_count : Nat) : ℚ :=
  d ^ retry_count

end CommonUtil

namespace DatabaseUtil

/-- The error-code extraction in `retry_query`:
`e.args[0]` if `len(e.args) > 0 and isinstance(e.args[0], int)`, else `None`. -/
def extract_error_code (args : List PyVal) : Option Int :=
  match args with
  | PyVal.int n :: _ => some n
  | _ => none

/-- The retryable error codes of `retry_query`:
1205 (lock wait timeout exceeded) and 1213 (deadlock found). -/
def retryable_errors : List Int := [1205, 1213]

/-- The membership test `error_code in retryable_errors`
(where `error_code` may be `None`, which is never a member). -/
def is_retryable_code (c : Option Int) : Bool :=
  match c with
  | some n => retryable_errors.contains n
  | none => false

/-- The `while attempt_num < max_attempts` loop of `retry_query`.  Each
iteration invokes the unit of work (attempt `call_idx`); on a `MySQLError`
with a retryable code the counter is incremented and, if attempts remain,
the backoff wait runs with the incremented counter and the loop continues;
otherwise the matching exception is raised.  `fuel` bounds the recursion and
is set to `max_attempts` at entry, which never runs out (each recursive step
increments `attempt_num`, and the loop body only recurses while
`attempt_num + 1 < max_attempts`). -/
def retry_query_loop {α : Type} (callback : Nat → CallOutcome α)
    (max_attempts attempt_num call_idx fuel : Nat) : RetryTrace α :=
  if attempt_num < max_attempts then
    match callback call_idx with
    | CallOutcome.ok r => ⟨RetryResult.ok r, [], 1⟩
    | CallOutcome.mysqlError args =>
      if is_retryable_code (extract_error_code args) then
        if attempt_num + 1 < max_attempts then
          match fuel with
          | 0 => ⟨RetryResult.noneFallthrough, [], 1⟩
          | fuel' + 1 =>
            let rest := retry_query_loop callback max_attempts (attempt_num + 1)
              (call_idx + 1) fuel'
            ⟨rest.result, (attempt_num + 1) :: rest.sleeps, rest.calls + 1⟩
        else
          ⟨RetryResult.databaseLockExc args, [], 1⟩
      else
        ⟨RetryResult.databaseExc args, [], 1⟩
    | CallOutcome.otherExc p => ⟨RetryResult.reraised p, [], 1⟩
  else
    ⟨RetryResult.noneFallthrough, [], 0⟩

/-- `DatabaseUtil.retry_query`: runs the retry loop with
`attempt_num = 0` and `max_attempts = RetryConstant.DEFAULT_MAX_RETRIES`.
The unit of work is given as the outcome of each successive invocation. -/
def retry_query {α : Type} (callback : Nat → CallOutcome α) : RetryTrace α :=
  retry_query_loop callback RetryConstant.DEFAULT_MAX_RETRIES 0 0
    RetryConstant.DEFAULT_MAX_RETRIES

end DatabaseUtil

/-- An exception as observed by callers of the database layer: the two
classified errors raised by `retry_query` (carrying the driver error's
`args`) or an unclassified exception propagated verbatim. -/
inductive ExcVal where
  | databaseLockExc (args : List PyVal)
  | databaseExc (args : List PyVal)
  | otherExc (payload : String)
deriving DecidableEq

/-- A pymysql connection, observed through how many times `close()` has been
called on it. -/
structure PyConnection where
  close_count : Nat
deriving DecidableEq

/-- `Connection.close()`: one more close call on the handle. -/
def PyConnection.close (c : PyConnection) : PyConnection :=
  { close_count := c.close_count + 1 }

/-- `ConnectionContextManager`: holds the managed connection. -/
structure ConnectionContextManager where
  connection : PyConnection
deriving DecidableEq

namespace ConnectionContextManager

/-- `__enter__`: returns the managed connection, nothing else. -/
def enter (m : ConnectionContextManager) : PyConnection :=
  m.connection

/-- `__exit__(exc_type, exc_val, exc_tb)`: runs `self.connection.close()`
and implicitly returns `None`.  The returned `Bool` is the truthiness of
that return value as the `with` statement reads it (truthy would suppress a
pending exception); `None` is falsy, so it is always `false`.  The exception
info argument is ignored by the body. -/
def exit_scope (m : ConnectionContextManager) (_excInfo : Option ExcVal) :
    ConnectionContextManager × Bool :=
  ({ connection := m.connection.close }, false)

end ConnectionContextManager

/-- Outcome of the block enclosed in a `with` statement: normal completion
with a value, or a raised exception. -/
inductive BodyOutcome (α : Type) where
  | normal (r : α)
  | raised (e : ExcVal)
deriving DecidableEq

/-- Outcome of the whole `with` statement: the block's value, a propagated
exception, or an exception swallowed by a truthy `__exit__` result. -/
inductive WithResult (α : Type) where
  | returned (r : α)
  | raised (e : ExcVal)
  | suppressed
deriving DecidableEq

/-- Python `with ConnectionContextManager(conn) as c:` semantics: call
`__enter__`, run the body on its result, then call `__exit__` with the
exception info (`None` on normal completion); if the body raised and
`__exit__` returned a falsy value, the exception propagates.  Returns the
manager's final state (carrying the connection's close count) and the
statement's outcome. -/
def with_connection_scope {α : Type} (m : ConnectionContextManager)
    (body : PyConnection → BodyOutcome α) : ConnectionContextManager × WithResult α :=
  match body (ConnectionContextManager.enter m) with
  | BodyOutcome.normal r =>
    let res := ConnectionContextManager.exit_scope m none
    (res.1, WithResult.returned r)
  | BodyOutcome.raised e =>
    let res := ConnectionContextManager.exit_scope m (some e)
    if res.2 then (res.1, WithResult.suppressed) else (res.1, WithResult.raised e)

namespace DatabaseUtil

/-- The `PooledDB` object held in `DatabaseUtil._connection_pool`, observed
through which call to `initialize` built it (`generation`) and whether
`close()` has been called on it. -/
structure PooledDBHandle where
  generation : Nat
  closed : Bool
deriving DecidableEq

/-- The class-level state of `DatabaseUtil`: the `_connection_pool`
attribute (`None` until a pool is built) plus a counter distinguishing
successive pool builds. -/
structure DbState where
  connection_pool : Option PooledDBHandle
  next_generation : Nat
deriving DecidableEq

/-- `DatabaseUtil.initialize()`: builds a fresh `PooledDB` and stores it in
`cls._connection_pool`, replacing whatever was there. -/
def initialize_pool (s : DbState) : DbState :=
  { connection_pool := some { generation := s.next_generation, closed := false },
    next_generation := s.next_generation + 1 }

/-- The connection handed out by `pool.connection()`, observed through which
pool build served it and whether that pool had already been closed. -/
structure BorrowedConnection where
  from_generation : Nat
  from_closed_pool : Bool
deriving DecidableEq

/-- `pool.connection()` on the stored pool object. -/
def pool_connection (p : PooledDBHandle) : BorrowedConnection :=
  ⟨p.generation, p.closed⟩

/-- `DatabaseUtil.get_connection()`:
`if cls._connection_pool is None: cls.initialize()` then
`return cls._connection_pool.connection()`.  The `Bool` records whether the
lazy initialization ran during this call. -/
def get_connection (s : DbState) : DbState × Bool × BorrowedConnection :=
  match s.connection_pool with
  | none =>
    let s' := initialize_pool s
    (s', true, pool_connection (s'.connection_pool.getD { generation := 0, closed := true }))
  | some p => (s, false, pool_connection p)

/-- `DatabaseUtil.close_all_connections()`:
`if cls._connection_pool is not None: cls._connection_pool.close()`.
The pool object is closed but `_connection_pool` keeps pointing at it. -/
def close_all_connections (s : DbState) : DbState :=
  match s.connection_pool with
  | some p => { s with connection_pool := some { p with closed := true } }
  | none => s

end DatabaseUtil

/-- A result row as returned by `DictCursor`: a column-name-keyed mapping. -/
structure Row where
  fields : List (String × PyVal)
deriving DecidableEq

/-- Column access on a row: the value under the first occurrence of the key. -/
def Row.get (r : Row) (k : String) : Option PyVal :=
  (r.fields.find? (fun kv => kv.1 == k)).map (fun kv => kv.2)

/-- Python truthiness of the `dict` row, as tested by `if result:` in the
repository: a dictionary is truthy iff it is non-empty. -/
def Row.truthy (r : Row) : Bool :=
  !r.fields.isEmpty

/-- Outcome of a Python call as its caller sees it: a value or a raised
exception. -/
inductive PyResult (α : Type) where
  | val (a : α)
  | exc (e : ExcVal)
deriving DecidableEq

namespace SiteMasterRepository

/-- The parameterized query
`SELECT * FROM SITE_MASTER WHERE SITE_MASTER_ID = %s` over a table of rows:
the rows whose `SITE_MASTER_ID` column equals the bound parameter, in table
order.  The parameter is bound, never interpolated, so it is compared as a
value. -/
def site_master_select (table : List Row) (site_master_id : PyVal) : List Row :=
  table.filter (fun r => r.get "SITE_MASTER_ID" == some site_master_id)

/-- `SiteMasterRepository.get_site_master_by_id`: runs
`DatabaseUtil.execute` (a unit of work submitted to `retry_query`, whose
per-attempt outcomes are `attempts`), then `cursor.fetchone()` on the
query's result set; returns the row if `if result:` is truthy, else `None`.
The surrounding `except Exception: logger.error(...); raise` re-raises any
exception unchanged, so each exceptional outcome of `retry_query` maps to
itself. -/
def get_site_master_by_id (attempts : Nat → CallOutcome Nat) (table : List Row)
    (site_master_id : PyVal) : PyResult (Option Row) :=
  match (DatabaseUtil.retry_query attempts).result with
  | RetryResult.databaseLockExc a => PyResult.exc (ExcVal.databaseLockExc a)
  | RetryResult.databaseExc a => PyResult.exc (ExcVal.databaseExc a)
  | RetryResult.reraised p => PyResult.exc (ExcVal.otherExc p)
  | _ =>
    match (site_master_select table site_master_id).head? with
    | some row => if row.truthy then PyResult.val (some row) else PyResult.val none
    | none => PyResult.val none

end SiteMasterRepository

example :
    DatabaseUtil.retry_query (fun _ => (CallOutcome.mysqlError [PyVal.int 1205] : CallOutcome Nat)) =
      ⟨RetryResult.databaseLockExc [PyVal.int 1205], [1, 2], 3⟩ := by decide

example :
    DatabaseUtil.retry_query (fun _ => CallOutcome.ok (5 : Nat)) =
      ⟨RetryResult.ok 5, [], 1⟩ := by decide

example :
    DatabaseUtil.retry_query (fun i =>
      if i < 2 then CallOutcome.mysqlError [PyVal.int 1213] else CallOutcome.ok (7 : Nat)) =
      ⟨RetryResult.ok 7, [1, 2], 3⟩ := by decide

example :
    DatabaseUtil.retry_query (fun _ => (CallOutcome.mysqlError [PyVal.int 1046] : CallOutcome Nat)) =
      ⟨RetryResult.databaseExc [PyVal.int 1046], [], 1⟩ := by decide

example :
    DatabaseUtil.retry_query (fun _ => (CallOutcome.mysqlError [PyVal.str "no code"] : CallOutcome Nat)) =
      ⟨RetryResult.databaseExc [PyVal.str "no code"], [], 1⟩ := by decide

section RetryExecutorTheorems

open DatabaseUtil

/-- Auxiliary: the loop never reaches the fall-through `return None` when it
starts with `attempt_num < max_attempts` and enough fuel. -/
theorem retry_query_loop_no_fallthrough {α : Type} (callback : Nat → CallOutcome α) :
    ∀ (fuel an ci ma : Nat), an < ma → ma ≤ fuel + an + 1 →
      (retry_query_loop callback ma an ci fuel).result ≠ RetryResult.noneFallthrough := by
  intro fuel
  induction fuel with
  | zero =>
    intro an ci ma h1 h2
    have hno : ¬ (an + 1 < ma) := by omega
    cases hcb : callback ci with
    | ok r => simp [retry_query_loop, h1, hcb]
    | mysqlError args =>
      by_cases hr : is_retryable_code (extract_error_code args) <;>
        simp [retry_query_loop, h1, hcb, hr, hno]
    | otherExc p => simp [retry_query_loop, h1, hcb]
  | succ fuel ih =>
    intro an ci ma h1 h2
    cases hcb : callback ci with
    | ok r => simp [retry_query_loop, h1, hcb]
    | mysqlError args =>
      by_cases hr : is_retryable_code (extract_error_code args)
      · by_cases h3 : an + 1 < ma
        · simpa [retry_query_loop, h1, hcb, hr, h3] using
            ih (an + 1) (ci + 1) ma h3 (by omega)
        · simp [retry_query_loop, h1, hcb, hr, h3]
      · simp [retry_query_loop, h1, hcb, hr]
    | otherExc p => simp [retry_query_loop, h1, hcb]

/-- C1: a unit of work that raises a driver error with a retryable code
(∈ {1205, 1213}) on every attempt makes exactly 3 attempts, invokes the
backoff wait exactly twice with attempt numbers 1 and 2, and raises
`DatabaseLockException` carrying the final failure's `args`. -/
theorem retry_query_all_retryable_trace (α : Type) (callback : Nat → CallOutcome α)
    (argsOf : Nat → List PyVal)
    (hfail : ∀ i, callback i = CallOutcome.mysqlError (argsOf i))
    (hretry : ∀ i, is_retryable_code (extract_error_code (argsOf i)) = true) :
    retry_query callback =
      ⟨RetryResult.databaseLockExc (argsOf 2), [1, 2], 3⟩ := by
  simp [retry_query, retry_query_loop, RetryConstant.DEFAULT_MAX_RETRIES, hfail, hretry]

theorem retry_query_all_retryable_trace_witness :
    DatabaseUtil.retry_query
        (fun _ => (CallOutcome.mysqlError
          [PyVal.int 1205, PyVal.str "Lock wait timeout exceeded"] : CallOutcome Nat)) =
      ⟨RetryResult.databaseLockExc [PyVal.int 1205, PyVal.str "Lock wait timeout exceeded"],
        [1, 2], 3⟩ :=
  retry_query_all_retryable_trace Nat
    (fun _ => CallOutcome.mysqlError [PyVal.int 1205, PyVal.str "Lock wait timeout exceeded"])
    (fun _ => [PyVal.int 1205, PyVal.str "Lock wait timeout exceeded"])
    (fun _ => rfl) (fun _ => rfl)

/-- C2: a unit of work whose first failure is a driver error with a
non-retryable code (or with no integer code as its first argument) makes
exactly one attempt and raises `DatabaseException` carrying that failure's
`args`, with no backoff wait. -/
theorem retry_query_non_retryable_trace (α : Type) (callback : Nat → CallOutcome α)
    (args : List PyVal)
    (h0 : callback 0 = CallOutcome.mysqlError args)
    (hnr : is_retryable_code (extract_error_code args) = false) :
    retry_query callback = ⟨RetryResult.databaseExc args, [], 1⟩ := by
  simp [retry_query, retry_query_loop, RetryConstant.DEFAULT_MAX_RETRIES, h0, hnr]

theorem retry_query_non_retryable_trace_witness :
    DatabaseUtil.retry_query
        (fun _ => (CallOutcome.mysqlError
          [PyVal.int 1046, PyVal.str "No database selected"] : CallOutcome Nat)) =
      ⟨RetryResult.databaseExc [PyVal.int 1046, PyVal.str "No database selected"], [], 1⟩ :=
  retry_query_non_retryable_trace Nat
    (fun _ => CallOutcome.mysqlError [PyVal.int 1046, PyVal.str "No database selected"])
    [PyVal.int 1046, PyVal.str "No database selected"] rfl rfl

/-- C3: a unit of work that fails with a retryable-code driver error on its
first `k` attempts (`k ≤ 2`) and succeeds on attempt `k + 1` returns that
attempt's result after exactly `k` backoff waits with attempt numbers
`1, …, k`; in particular `k = 0` gives a first-attempt success with zero
waits and no further attempts. -/
theorem retry_query_eventual_success_trace (α : Type) (callback : Nat → CallOutcome α)
    (k : Nat) (hk : k ≤ 2) (r : α) (argsOf : Nat → List PyVal)
    (hfail : ∀ i, i < k → callback i = CallOutcome.mysqlError (argsOf i))
    (hretry : ∀ i, i < k → is_retryable_code (extract_error_code (argsOf i)) = true)
    (hsucc : callback k = CallOutcome.ok r) :
    retry_query callback = ⟨RetryResult.ok r, List.range' 1 k, k + 1⟩ := by
  interval_cases k
  · simp [retry_query, retry_query_loop, RetryConstant.DEFAULT_MAX_RETRIES, hsucc,
      List.range']
  · simp [retry_query, retry_query_loop, RetryConstant.DEFAULT_MAX_RETRIES,
      hfail 0 (by omega), hretry 0 (by omega), hsucc, List.range']
  · simp [retry_query, retry_query_loop, RetryConstant.DEFAULT_MAX_RETRIES,
      hfail 0 (by omega), hfail 1 (by omega), hretry 0 (by omega), hretry 1 (by omega),
      hsucc, List.range']

theorem retry_query_eventual_success_trace_witness :
    DatabaseUtil.retry_query
        (fun i => if i < 2 then CallOutcome.mysqlError [PyVal.int 1213, PyVal.str "Deadlock found"]
                  else CallOutcome.ok (42 : Nat)) =
      ⟨RetryResult.ok 42, [1, 2], 3⟩ :=
  retry_query_eventual_success_trace Nat
    (fun i => if i < 2 then CallOutcome.mysqlError [PyVal.int 1213, PyVal.str "Deadlock found"]
              else CallOutcome.ok 42)
    2 (by omega) 42
    (fun _ => [PyVal.int 1213, PyVal.str "Deadlock found"])
    (fun i hi => by simp [hi])
    (fun _ _ => rfl) rfl

/-- C9: a unit of work that raises a non-driver exception has it re-raised
unchanged on the spot: one attempt, no reclassification into a typed error,
no retry and no backoff wait. -/
theorem retry_query_reraises_unexpected (α : Type) (callback : Nat → CallOutcome α)
    (p : String) (h0 : callback 0 = CallOutcome.otherExc p) :
    retry_query callback = ⟨RetryResult.reraised p, [], 1⟩ := by
  simp [retry_query, retry_query_loop, RetryConstant.DEFAULT_MAX_RETRIES, h0]

theorem retry_query_reraises_unexpected_witness :
    DatabaseUtil.retry_query
        (fun _ => (CallOutcome.otherExc "KeyError" : CallOutcome Nat)) =
      ⟨RetryResult.reraised "KeyError", [], 1⟩ :=
  retry_query_reraises_unexpected Nat _ "KeyError" rfl

/-- C10: with the configured `max_attempts = DEFAULT_MAX_RETRIES = 3`,
every `retry_query` call either returns a result or raises: the
fall-through branch after the loop (`return None`) is unreachable. -/
theorem retry_query_never_falls_through (α : Type) (callback : Nat → CallOutcome α) :
    (retry_query callback).result ≠ RetryResult.noneFallthrough ∧
    ((∃ r, (retry_query callback).result = RetryResult.ok r) ∨
     (∃ a, (retry_query callback).result = RetryResult.databaseLockExc a) ∨
     (∃ a, (retry_query callback).result = RetryResult.databaseExc a) ∨
     (∃ p, (retry_query callback).result = RetryResult.reraised p)) := by
  have h : (retry_query callback).result ≠ RetryResult.noneFallthrough := by
    have := retry_query_loop_no_fallthrough callback
      RetryConstant.DEFAULT_MAX_RETRIES 0 0 RetryConstant.DEFAULT_MAX_RETRIES
      (by norm_num [RetryConstant.DEFAULT_MAX_RETRIES])
      (by norm_num [RetryConstant.DEFAULT_MAX_RETRIES])
    simpa [retry_query] using this
  refine ⟨h, ?_⟩
  cases hres : (retry_query callback).result with
  | ok r => exact Or.inl ⟨r, rfl⟩
  | noneFallthrough => exact absurd hres h
  | databaseLockExc a => exact Or.inr (Or.inl ⟨a, rfl⟩)
  | databaseExc a => exact Or.inr (Or.inr (Or.inl ⟨a, rfl⟩))
  | reraised p => exact Or.inr (Or.inr (Or.inr ⟨p, rfl⟩))

end RetryExecutorTheorems

section BackoffTheorems

open DatabaseUtil

/-- Step equation: loop condition false. -/
theorem retry_query_loop_done {α : Type} (callback : Nat → CallOutcome α)
    (ma an ci fuel : Nat) (h1 : ¬ an < ma) :
    retry_query_loop callback ma an ci fuel =
      ⟨RetryResult.noneFallthrough, [], 0⟩ := by
  cases fuel <;> simp [retry_query_loop, h1]

/-- Step equation: the unit of work succeeds. -/
theorem retry_query_loop_ok {α : Type} (callback : Nat → CallOutcome α)
    (ma an ci fuel : Nat) (r : α) (h1 : an < ma)
    (hcb : callback ci = CallOutcome.ok r) :
    retry_query_loop callback ma an ci fuel = ⟨RetryResult.ok r, [], 1⟩ := by
  cases fuel <;> simp [retry_query_loop, h1, hcb]

/-- Step equation: the unit of work raises a non-driver exception. -/
theorem retry_query_loop_other {α : Type} (callback : Nat → CallOutcome α)
    (ma an ci fuel : Nat) (p : String) (h1 : an < ma)
    (hcb : callback ci = CallOutcome.otherExc p) :
    retry_query_loop callback ma an ci fuel = ⟨RetryResult.reraised p, [], 1⟩ := by
  cases fuel <;> simp [retry_query_loop, h1, hcb]

/-- Step equation: a driver error with a non-retryable code. -/
theorem retry_query_loop_nonretryable {α : Type} (callback : Nat → CallOutcome α)
    (ma an ci fuel : Nat) (args : List PyVal) (h1 : an < ma)
    (hcb : callback ci = CallOutcome.mysqlError args)
    (hr : is_retryable_code (extract_error_code args) = false) :
    retry_query_loop callback ma an ci fuel = ⟨RetryResult.databaseExc args, [], 1⟩ := by
  cases fuel <;> simp [retry_query_loop, h1, hcb, hr]

/-- Step equation: a retryable driver error with no attempts left. -/
theorem retry_query_loop_exhaust {α : Type} (callback : Nat → CallOutcome α)
    (ma an ci fuel : Nat) (args : List PyVal) (h1 : an < ma)
    (hcb : callback ci = CallOutcome.mysqlError args)
    (hr : is_retryable_code (extract_error_code args) = true)
    (h3 : ¬ an + 1 < ma) :
    retry_query_loop callback ma an ci fuel =
      ⟨RetryResult.databaseLockExc args, [], 1⟩ := by
  cases fuel <;> simp [retry_query_loop, h1, hcb, hr, h3]

/-- Step equation: a retryable driver error with attempts left — backoff
with the incremented counter and loop. -/
theorem retry_query_loop_continue {α : Type} (callback : Nat → CallOutcome α)
    (ma an ci fuel : Nat) (args : List PyVal) (h1 : an < ma)
    (hcb : callback ci = CallOutcome.mysqlError args)
    (hr : is_retryable_code (extract_error_code args) = true)
    (h3 : an + 1 < ma) :
    retry_query_loop callback ma an ci (fuel + 1) =
      ⟨(retry_query_loop callback ma (an + 1) (ci + 1) fuel).result,
       (an + 1) :: (retry_query_loop callback ma (an + 1) (ci + 1) fuel).sleeps,
       (retry_query_loop callback ma (an + 1) (ci + 1) fuel).calls + 1⟩ := by
  simp [retry_query_loop, h1, hcb, hr, h3]

/-- Step equation: a retryable driver error with attempts left but no fuel
(never reached from `retry_query`, whose fuel equals the loop bound). -/
theorem retry_query_loop_zero_fuel {α : Type} (callback : Nat → CallOutcome α)
    (ma an ci : Nat) (args : List PyVal) (h1 : an < ma)
    (hcb : callback ci = CallOutcome.mysqlError args)
    (hr : is_retryable_code (extract_error_code args) = true)
    (h3 : an + 1 < ma) :
    retry_query_loop callback ma an ci 0 =
      ⟨RetryResult.noneFallthrough, [], 1⟩ := by
  simp [retry_query_loop, h1, hcb, hr, h3]

/-- Auxiliary: every attempt number in the sleep trace of the retry loop is
strictly above the entry attempt counter and strictly below the loop bound. -/
theorem retry_query_loop_sleeps_mem {α : Type} (callback : Nat → CallOutcome α) :
    ∀ (fuel an ci ma n : Nat), n ∈ (retry_query_loop callback ma an ci fuel).sleeps →
      an + 1 ≤ n ∧ n < ma := by
  intro fuel
  induction fuel with
  | zero =>
    intro an ci ma n hn
    by_cases h1 : an < ma
    · cases hcb : callback ci with
      | ok r =>
        rw [retry_query_loop_ok callback ma an ci 0 r h1 hcb] at hn
        simp at hn
      | mysqlError args =>
        by_cases hr : is_retryable_code (extract_error_code args)
        · by_cases h3 : an + 1 < ma
          · rw [retry_query_loop_zero_fuel callback ma an ci args h1 hcb hr h3] at hn
            simp at hn
          · rw [retry_query_loop_exhaust callback ma an ci 0 args h1 hcb hr h3] at hn
            simp at hn
        · rw [retry_query_loop_nonretryable callback ma an ci 0 args h1 hcb
            (by simpa using hr)] at hn
          simp at hn
      | otherExc p =>
        rw [retry_query_loop_other callback ma an ci 0 p h1 hcb] at hn
        simp at hn
    · rw [retry_query_loop_done callback ma an ci 0 h1] at hn
      simp at hn
  | succ fuel ih =>
    intro an ci ma n hn
    by_cases h1 : an < ma
    · cases hcb : callback ci with
      | ok r =>
        rw [retry_query_loop_ok callback ma an ci (fuel + 1) r h1 hcb] at hn
        simp at hn
      | mysqlError args =>
        by_cases hr : is_retryable_code (extract_error_code args)
        · by_cases h3 : an + 1 < ma
          · rw [retry_query_loop_continue callback ma an ci fuel args h1 hcb hr h3] at hn
            simp only [List.mem_cons] at hn
            rcases hn with rfl | hn
            · omega
            · have := ih (an + 1) (ci + 1) ma n hn
              omega
          · rw [retry_query_loop_exhaust callback ma an ci (fuel + 1) args h1 hcb hr h3] at hn
            simp at hn
        · rw [retry_query_loop_nonretryable callback ma an ci (fuel + 1) args h1 hcb
            (by simpa using hr)] at hn
          simp at hn
      | otherExc p =>
        rw [retry_query_loop_other callback ma an ci (fuel + 1) p h1 hcb] at hn
        simp at hn
    · rw [retry_query_loop_done callback ma an ci (fuel + 1) h1] at hn
      simp at hn

/-- C6 counterexample: a `retry_query` call whose unit of work fails with
retryable code 1205 on every attempt performs the retries `n = 1` and
`n = 2`, and the first retry's delay `0.1` is strictly larger than the
second's `0.01`: with the configured base delay `0.1`, `n = 1` does not
give the smallest delay. -/
theorem first_retry_delay_not_smallest :
    (DatabaseUtil.retry_query
        (fun _ => (CallOutcome.mysqlError [PyVal.int 1205] : CallOutcome Nat))).sleeps =
      [1, 2] ∧
    CommonUtil.sleep_with_exponential_backoff 2 <
      CommonUtil.sleep_with_exponential_backoff 1 := by
  constructor
  · decide
  · norm_num [CommonUtil.sleep_with_exponential_backoff,
      RetryConstant.RETRY_DELAY_IN_SECONDS]

/-- C6 amended: with the configured base delay `0.1 < 1` the backoff delays
decrease in the attempt number, so the first retry (`n = 1`) uses the
largest — not the smallest — backoff delay among all retries of a single
`retry_query` call: the delay of every attempt number in the sleep trace is
at most the delay of `n = 1`. -/
theorem first_retry_delay_largest (α : Type) (callback : Nat → CallOutcome α) (n : Nat)
    (hn : n ∈ (DatabaseUtil.retry_query callback).sleeps) :
    CommonUtil.sleep_with_exponential_backoff n ≤
      CommonUtil.sleep_with_exponential_backoff 1 := by
  have hb := retry_query_loop_sleeps_mem callback RetryConstant.DEFAULT_MAX_RETRIES 0 0
    RetryConstant.DEFAULT_MAX_RETRIES n (by simpa [DatabaseUtil.retry_query] using hn)
  have h1 : 1 ≤ n := hb.1
  have h2 : n < 3 := by
    have := hb.2
    simpa [RetryConstant.DEFAULT_MAX_RETRIES] using this
  interval_cases n
  · exact le_refl _
  · norm_num [CommonUtil.sleep_with_exponential_backoff,
      RetryConstant.RETRY_DELAY_IN_SECONDS]

theorem first_retry_delay_largest_witness :
    CommonUtil.sleep_with_exponential_backoff 2 ≤
      CommonUtil.sleep_with_exponential_backoff 1 :=
  first_retry_delay_largest Nat
    (fun _ => CallOutcome.mysqlError [PyVal.int 1205]) 2 (by decide)

/-- C7: the delay computed by `sleep_with_exponential_backoff` equals
`base_delay ^ n` with the configured `base_delay = RETRY_DELAY_IN_SECONDS`
(0.1), and as a function of the attempt number the formula `d ^ n` is
strictly increasing when `d > 1` and strictly decreasing when `0 < d < 1`. -/
theorem backoff_delay_formula_monotone (d : ℚ) (n : Nat) (hn : 1 ≤ n) :
    CommonUtil.sleep_with_exponential_backoff n =
      RetryConstant.RETRY_DELAY_IN_SECONDS ^ n ∧
    (∀ m, n < m → 1 < d →
      CommonUtil.sleep_time_with_base d n < CommonUtil.sleep_time_with_base d m) ∧
    (∀ m, n < m → 0 < d → d < 1 →
      CommonUtil.sleep_time_with_base d m < CommonUtil.sleep_time_with_base d n) := by
  refine ⟨rfl, ?_, ?_⟩
  · intro m hm hd
    simpa [CommonUtil.sleep_time_with_base] using pow_lt_pow_right₀ hd hm
  · intro m hm hd0 hd1
    simpa [CommonUtil.sleep_time_with_base] using
      pow_lt_pow_right_of_lt_one₀ hd0 hd1 hm

theorem backoff_delay_formula_monotone_witness :
    CommonUtil.sleep_with_exponential_backoff 1 =
      RetryConstant.RETRY_DELAY_IN_SECONDS ^ 1 ∧
    CommonUtil.sleep_time_with_base 2 1 < CommonUtil.sleep_time_with_base 2 2 ∧
    CommonUtil.sleep_time_with_base (1 / 10) 2 <
      CommonUtil.sleep_time_with_base (1 / 10) 1 :=
  ⟨(backoff_delay_formula_monotone 2 1 (by norm_num)).1,
   (backoff_delay_formula_monotone 2 1 (by norm_num)).2.1 2 (by norm_num) (by norm_num),
   (backoff_delay_formula_monotone (1 / 10) 1 (by norm_num)).2.2 2 (by norm_num)
     (by norm_num) (by norm_num)⟩

end BackoffTheorems

/-- C4: on every execution path through the connection lifecycle guard —
normal completion of the enclosed work, a raised classified error, or a
raised unclassified error — the guard's exit handler closes the underlying
connection exactly once, and an exception raised by the enclosed work is
never suppressed. -/
theorem guard_closes_once_never_suppresses (α : Type) (m : ConnectionContextManager)
    (body : PyConnection → BodyOutcome α) :
    ((with_connection_scope m body).1.connection.close_count =
      m.connection.close_count + 1) ∧
    (∀ r, body m.connection = BodyOutcome.normal r →
      (with_connection_scope m body).2 = WithResult.returned r) ∧
    (∀ e, body m.connection = BodyOutcome.raised e →
      (with_connection_scope m body).2 = WithResult.raised e) ∧
    (with_connection_scope m body).2 ≠ WithResult.suppressed := by
  cases hb : body m.connection <;>
    simp [with_connection_scope, ConnectionContextManager.enter,
      ConnectionContextManager.exit_scope, PyConnection.close, hb]

theorem guard_closes_once_never_suppresses_witness :
    ((with_connection_scope ⟨⟨0⟩⟩ (fun _ => BodyOutcome.normal (5 : Nat))).1.connection.close_count
      = 1) ∧
    ((with_connection_scope ⟨⟨0⟩⟩ (fun _ => BodyOutcome.normal (5 : Nat))).2 =
      WithResult.returned 5) ∧
    ((with_connection_scope ⟨⟨0⟩⟩
        (fun _ => (BodyOutcome.raised (ExcVal.otherExc "KeyError") : BodyOutcome Nat))).2 =
      WithResult.raised (ExcVal.otherExc "KeyError")) :=
  ⟨(guard_closes_once_never_suppresses Nat ⟨⟨0⟩⟩ (fun _ => BodyOutcome.normal 5)).1,
   (guard_closes_once_never_suppresses Nat ⟨⟨0⟩⟩ (fun _ => BodyOutcome.normal 5)).2.1 5 rfl,
   (guard_closes_once_never_suppresses Nat ⟨⟨0⟩⟩
     (fun _ => BodyOutcome.raised (ExcVal.otherExc "KeyError"))).2.2.1
     (ExcVal.otherExc "KeyError") rfl⟩

/-- C5 counterexample: build the pool, run `close_all_connections`, then
`get_connection`: the lazy initialization does not run (recorded flag is
`false`), the pool attribute still holds the original generation-0 pool
(now closed) rather than a fresh one, and the borrow is served by that
closed pool.  So a `get_connection` after `close_all` does not
re-initialize. -/
theorem get_connection_after_close_all_no_reinit :
    (DatabaseUtil.get_connection
        (DatabaseUtil.close_all_connections
          (DatabaseUtil.initialize_pool ⟨none, 0⟩))).2.1 = false ∧
    (DatabaseUtil.get_connection
        (DatabaseUtil.close_all_connections
          (DatabaseUtil.initialize_pool ⟨none, 0⟩))).1.connection_pool =
      some ⟨0, true⟩ ∧
    (DatabaseUtil.get_connection
        (DatabaseUtil.close_all_connections
          (DatabaseUtil.initialize_pool ⟨none, 0⟩))).2.2 = ⟨0, true⟩ := by
  decide

/-- C5 amended: `get_connection` lazily initializes exactly when
`_connection_pool` is `None` (the first-ever call); after
`close_all_connections` the attribute still holds the now-closed pool
object, so a subsequent `get_connection` does not re-initialize and
borrows from that same closed pool. -/
theorem get_connection_lazy_only_when_pool_absent (s : DatabaseUtil.DbState) :
    (s.connection_pool = none →
      (DatabaseUtil.get_connection s).2.1 = true ∧
      (DatabaseUtil.get_connection s).1.connection_pool =
        some ⟨s.next_generation, false⟩) ∧
    (∀ p, s.connection_pool = some p →
      (DatabaseUtil.get_connection s).2.1 = false ∧
      (DatabaseUtil.get_connection s).1 = s ∧
      (DatabaseUtil.get_connection s).2.2 = DatabaseUtil.pool_connection p) ∧
    (∀ p, s.connection_pool = some p →
      (DatabaseUtil.close_all_connections s).connection_pool =
        some ⟨p.generation, true⟩ ∧
      (DatabaseUtil.get_connection (DatabaseUtil.close_all_connections s)).2.1 = false ∧
      (DatabaseUtil.get_connection (DatabaseUtil.close_all_connections s)).2.2 =
        ⟨p.generation, true⟩) := by
  obtain ⟨pool, gen⟩ := s
  cases pool with
  | none =>
    simp [DatabaseUtil.get_connection, DatabaseUtil.initialize_pool,
      DatabaseUtil.pool_connection]
  | some p =>
    simp [DatabaseUtil.get_connection, DatabaseUtil.close_all_connections,
      DatabaseUtil.pool_connection]

theorem get_connection_lazy_only_when_pool_absent_witness :
    (DatabaseUtil.get_connection ⟨none, 0⟩).2.1 = true ∧
    (DatabaseUtil.get_connection
        (DatabaseUtil.close_all_connections ⟨some ⟨0, false⟩, 1⟩)).2.1 = false :=
  ⟨((get_connection_lazy_only_when_pool_absent ⟨none, 0⟩).1 rfl).1,
   ((get_connection_lazy_only_when_pool_absent ⟨some ⟨0, false⟩, 1⟩).2.2
      ⟨0, false⟩ rfl).2.1⟩

/-- A row matched by the parameterized select necessarily carries the
`SITE_MASTER_ID` column, hence is a non-empty mapping and truthy under
`if result:`. -/
theorem matched_row_truthy (r : Row) (v : PyVal)
    (h : r.get "SITE_MASTER_ID" = some v) : r.truthy = true := by
  unfold Row.get at h
  cases hf : r.fields.find? (fun kv => kv.1 == "SITE_MASTER_ID") with
  | none => rw [hf] at h; simp at h
  | some kv =>
    have hmem := List.mem_of_find?_eq_some hf
    cases hfl : r.fields with
    | nil => rw [hfl] at hmem; simp at hmem
    | cons a l => simp [Row.truthy, hfl]

/-- C8: given the query executor succeeded, the repository lookup returns
`None` (absent, not an error) when the parameterized query matches zero
rows and the matched row's column mapping when exactly one row matches;
and every error raised by the executor — classified or not — propagates
unchanged to the caller. -/
theorem get_site_master_by_id_contract (attempts : Nat → CallOutcome Nat)
    (table : List Row) (idv : PyVal) :
    (∀ n, (DatabaseUtil.retry_query attempts).result = RetryResult.ok n →
      ((SiteMasterRepository.site_master_select table idv = [] →
        SiteMasterRepository.get_site_master_by_id attempts table idv =
          PyResult.val none) ∧
       (∀ row, SiteMasterRepository.site_master_select table idv = [row] →
        SiteMasterRepository.get_site_master_by_id attempts table idv =
          PyResult.val (some row)))) ∧
    (∀ a, (DatabaseUtil.retry_query attempts).result = RetryResult.databaseLockExc a →
      SiteMasterRepository.get_site_master_by_id attempts table idv =
        PyResult.exc (ExcVal.databaseLockExc a)) ∧
    (∀ a, (DatabaseUtil.retry_query attempts).result = RetryResult.databaseExc a →
      SiteMasterRepository.get_site_master_by_id attempts table idv =
        PyResult.exc (ExcVal.databaseExc a)) ∧
    (∀ p, (DatabaseUtil.retry_query attempts).result = RetryResult.reraised p →
      SiteMasterRepository.get_site_master_by_id attempts table idv =
        PyResult.exc (ExcVal.otherExc p)) := by
  refine ⟨?_, ?_, ?_, ?_⟩
  · intro n hres
    constructor
    · intro hempty
      simp [SiteMasterRepository.get_site_master_by_id, hres, hempty]
    · intro row hone
      have hmem : row ∈ table.filter
          (fun r => r.get "SITE_MASTER_ID" == some idv) := by
        have hx : row ∈ SiteMasterRepository.site_master_select table idv := by
          simp [hone]
        simpa [SiteMasterRepository.site_master_select] using hx
      have hpred := (List.mem_filter.mp hmem).2
      have hv : row.get "SITE_MASTER_ID" = some idv := by
        simpa using hpred
      have ht := matched_row_truthy row idv hv
      simp [SiteMasterRepository.get_site_master_by_id, hres, hone, ht]
  · intro a hres
    simp [SiteMasterRepository.get_site_master_by_id, hres]
  · intro a hres
    simp [SiteMasterRepository.get_site_master_by_id, hres]
  · intro p hres
    simp [SiteMasterRepository.get_site_master_by_id, hres]

theorem get_site_master_by_id_contract_witness :
    SiteMasterRepository.get_site_master_by_id (fun _ => CallOutcome.ok 1)
      [⟨[("SITE_MASTER_ID", PyVal.str "site-42"),
         ("MANAGER_DOMAIN", PyVal.str "example.com")]⟩]
      (PyVal.str "site-42") =
      PyResult.val (some ⟨[("SITE_MASTER_ID", PyVal.str "site-42"),
        ("MANAGER_DOMAIN", PyVal.str "example.com")]⟩) :=
  ((get_site_master_by_id_contract (fun _ => CallOutcome.ok 1)
      [⟨[("SITE_MASTER_ID", PyVal.str "site-42"),
         ("MANAGER_DOMAIN", PyVal.str "example.com")]⟩]
      (PyVal.str "site-42")).1 1 rfl).2
    ⟨[("SITE_MASTER_ID", PyVal.str "site-42"),
      ("MANAGER_DOMAIN", PyVal.str "example.com")]⟩ (by decide)
